import Mathlib

/-!
Verification of the libyang YANG schema printer (src/printer/yang.c).

The C file is a recursive-descent printer turning an in-memory schema tree
(struct ly_module / struct ly_mnode, declared in the repository's tree.h,
which is not part of the sources given here) into YANG text on a FILE sink.

Embedding conventions:
- every fprintf/fwrite payload is collected into a String (writer-style
  shallow embedding); the FILE sink itself is modelled by SinkState below,
  and the entry point yang_print_model applies the collected output to it;
- C strings that may be unset (NULL pointers) become Option String; the
  fixed-size revision buffers whose first byte is tested (rev[0]) become
  String with the empty string meaning unset;
- pointer identity of module objects is modelled by module names (the spec
  requires resolved, uniquely named modules);
- numeric flag words stay Nat with explicit bitwise masking, mirroring the
  C bit tests.
-/

namespace Libyang

/-- Modelled from the spec: node-kind bit constants from tree.h (tree.h is
not among the given sources); each variant is a distinct bit, as required
by the mask-filter dispatch of section 4.2 of the spec. -/
def LY_NODE_CONTAINER : Nat := 0x01

/-- Modelled from the spec: node-kind bit for choice nodes. -/
def LY_NODE_CHOICE : Nat := 0x02

/-- Modelled from the spec: node-kind bit for leaf nodes. -/
def LY_NODE_LEAF : Nat := 0x04

/-- Modelled from the spec: node-kind bit for leaf-list nodes. -/
def LY_NODE_LEAFLIST : Nat := 0x08

/-- Modelled from the spec: node-kind bit for list nodes. -/
def LY_NODE_LIST : Nat := 0x10

/-- Modelled from the spec: node-kind bit for uses nodes. -/
def LY_NODE_USES : Nat := 0x40

/-- Modelled from the spec: node-kind bit for grouping nodes. -/
def LY_NODE_GROUPING : Nat := 0x80

/-- Modelled from the spec: flag bit for config true (writable). -/
def LY_NODE_CONFIG_W : Nat := 0x01

/-- Modelled from the spec: flag bit for config false (read-only). -/
def LY_NODE_CONFIG_R : Nat := 0x02

/-- Modelled from the spec: mask of the two config bits. -/
def LY_NODE_CONFIG_MASK : Nat := 0x03

/-- Modelled from the spec: status flag bit for current. -/
def LY_NODE_STATUS_CURR : Nat := 0x04

/-- Modelled from the spec: status flag bit for deprecated. -/
def LY_NODE_STATUS_DEPRC : Nat := 0x08

/-- Modelled from the spec: status flag bit for obsolete. -/
def LY_NODE_STATUS_OBSLT : Nat := 0x10

/-- The mask used by the container, list, grouping and top-level walks:
LY_NODE_CHOICE | LY_NODE_CONTAINER | LY_NODE_LEAF | LY_NODE_LEAFLIST |
LY_NODE_LIST | LY_NODE_USES | LY_NODE_GROUPING (the C code repeats this
or-expression at each call site). -/
def LY_NODE_MASK_ALL : Nat :=
  LY_NODE_CHOICE ||| LY_NODE_CONTAINER ||| LY_NODE_LEAF ||| LY_NODE_LEAFLIST |||
  LY_NODE_LIST ||| LY_NODE_USES ||| LY_NODE_GROUPING

/-- The mask used inside a choice: LY_NODE_CONTAINER | LY_NODE_LEAF |
LY_NODE_LEAFLIST | LY_NODE_LIST. -/
def LY_NODE_MASK_CHOICE : Nat :=
  LY_NODE_CONTAINER ||| LY_NODE_LEAF ||| LY_NODE_LEAFLIST ||| LY_NODE_LIST

/-- n spaces: the output of C's padded fprintf("%*s", n, "") used for
indentation (LEVEL expands to level*2, INDENT to the empty string). -/
def sp : Nat → String
  | 0 => ""
  | n + 1 => " " ++ sp n

/-- The while loop of yang_print_text: copy the text character by
character, and after each newline written, write the indentation string
(fwrite of each chunk up to and including the newline found by strchr,
followed by fprintf of the padding, then the remainder). -/
def textLoopL (ind : List Char) : List Char → List Char
  | [] => []
  | c :: cs =>
    if c = '\n' then c :: (ind ++ textLoopL ind cs)
    else c :: textLoopL ind cs

/-- yang_print_text: label line at the current level, then the body quoted
at one level deeper, every line after a newline re-indented, terminated by
a quote, semicolon, newline and a blank line. -/
def yang_print_text (level : Nat) (name : String) (text : String) : String :=
  sp (level*2) ++ name ++ "\n"
  ++ sp ((level+1)*2) ++ "\""
  ++ String.mk (textLoopL (sp ((level+1)*2)).data text.data)
  ++ "\";\n\n"

/-- Specification-side definition (section 4.8 / section 8 of the spec):
split a text into its physical lines at each newline. -/
def splitPhysicalLines : List Char → List (List Char)
  | [] => [[]]
  | c :: cs =>
    if c = '\n' then [] :: splitPhysicalLines cs
    else
      match splitPhysicalLines cs with
      | [] => [[c]]
      | l :: ls => (c :: l) :: ls

/-- Specification-side definition: rejoin physical lines, putting each
line after the first behind a newline followed by the indentation. -/
def reindentLines (ind : List Char) : List (List Char) → List Char
  | [] => []
  | [l] => l
  | l :: ls => l ++ '\n' :: (ind ++ reindentLines ind ls)

/-- yang_print_mnode_common, covering status, description and reference.
The C function receives a struct ly_mnode pointer (or another struct cast
to it, sharing the common header); the embedding passes the three header
fields it reads. -/
def yang_print_mnode_common (level : Nat) (flags : Nat)
    (dsc ref : Option String) : String :=
  (if flags &&& LY_NODE_STATUS_CURR ≠ 0 then
      sp (level*2) ++ "status \"current\";\n"
    else if flags &&& LY_NODE_STATUS_DEPRC ≠ 0 then
      sp (level*2) ++ "status \"deprecated\";\n"
    else if flags &&& LY_NODE_STATUS_OBSLT ≠ 0 then
      sp (level*2) ++ "status \"obsolete\";\n"
    else "")
  ++ (match dsc with
      | some d => yang_print_text level ("description") d
      | none => "")
  ++ (match ref with
      | some r => yang_print_text level ("reference") r
      | none => "")

/-- yang_print_mnode_common2: the config line, printed only when the node
has no parent or the parent's config bits differ from the node's, followed
by yang_print_mnode_common. parent_flags models mnode->parent: none for a
NULL parent, otherwise the parent's flag word. -/
def yang_print_mnode_common2 (level : Nat) (flags : Nat)
    (parent_flags : Option Nat) (dsc ref : Option String) : String :=
  (if parent_flags.isNone ∨
      parent_flags.getD 0 &&& LY_NODE_CONFIG_MASK ≠ flags &&& LY_NODE_CONFIG_MASK then
     if flags &&& LY_NODE_CONFIG_W ≠ 0 then
       sp (level*2) ++ "config \"true\";\n"
     else if flags &&& LY_NODE_CONFIG_R ≠ 0 then
       sp (level*2) ++ "config \"false\";\n"
     else ""
   else "")
  ++ yang_print_mnode_common level flags dsc ref

/-- The base kinds distinguished by yang_print_type's switch; every kind
other than LY_TYPE_ENUM and LY_TYPE_IDENT falls into the default branch. -/
inductive LY_DATA_TYPE where
  | LY_TYPE_ENUM
  | LY_TYPE_IDENT
  | LY_TYPE_OTHER
deriving DecidableEq

/-- One entry of type->info.enums.list: name, value and the common header
fields read after the cast to struct ly_mnode. -/
structure ly_enum_entry where
  name : String
  flags : Nat
  dsc : Option String
  ref : Option String
  value : Int
deriving DecidableEq

/-- A resolved identity reference (type->info.ident.ref or ident->base):
its name, the name of its owning module and that module's prefix string. -/
structure ly_ident_ref where
  name : String
  mod_name : String
  mod_pfx : String
deriving DecidableEq

/-- struct ly_type: the optional prefix string (NULL when the type is not
imported), the derived-type definition's name (type->der->name), the
derived-type definition's owning module (modelled from the spec, tree.h is
not among the given sources: the prefix is present exactly when the type
is imported from another module), the base kind and the union payloads. -/
structure ly_type where
  pfx : Option String
  der_name : String
  der_mod_name : String
  base : LY_DATA_TYPE
  enums : List ly_enum_entry
  ident : ly_ident_ref
deriving DecidableEq

/-- The enum loop of yang_print_type (case LY_TYPE_ENUM), at the level
reached after the level++ following the type header. -/
def yang_print_type_enums (level : Nat) : List ly_enum_entry → String
  | [] => ""
  | e :: es =>
    sp (level*2) ++ "enum " ++ e.name ++ " \x7b\n"
    ++ yang_print_mnode_common (level+1) e.flags e.dsc e.ref
    ++ sp ((level+1)*2) ++ "value " ++ toString e.value ++ ";\n"
    ++ sp (level*2) ++ "\x7d\n"
    ++ yang_print_type_enums level es

/-- The switch of yang_print_type after level++: enum entries, or the base
identity line (bare when the base identity's module is the module being
printed, prefixed otherwise), or nothing for all other kinds. -/
def yang_print_type_body (level : Nat) (module : String) (t : ly_type) : String :=
  match t.base with
  | .LY_TYPE_ENUM => yang_print_type_enums level t.enums
  | .LY_TYPE_IDENT =>
    if module = t.ident.mod_name then
      sp (level*2) ++ "base " ++ t.ident.name ++ ";\n"
    else
      sp (level*2) ++ "base " ++ t.ident.mod_pfx ++ ":" ++ t.ident.name ++ ";\n"
  | .LY_TYPE_OTHER => ""

/-- yang_print_type: the type header with the prefix exactly when
type->prefix is set, the kind-dependent body, and the closing brace. -/
def yang_print_type (level : Nat) (module : String) (t : ly_type) : String :=
  (match t.pfx with
   | some p => sp (level*2) ++ "type " ++ p ++ ":" ++ t.der_name ++ " \x7b\n"
   | none => sp (level*2) ++ "type " ++ t.der_name ++ " \x7b\n")
  ++ yang_print_type_body (level+1) module t
  ++ sp (level*2) ++ "\x7d\n"

/-- struct ly_tpdf: name, common header fields and the contained type. -/
structure ly_tpdf where
  name : String
  flags : Nat
  dsc : Option String
  ref : Option String
  type : ly_type
deriving DecidableEq

/-- yang_print_typedef. -/
def yang_print_typedef (level : Nat) (module : String) (tpdf : ly_tpdf) : String :=
  sp (level*2) ++ "typedef " ++ tpdf.name ++ " \x7b\n"
  ++ yang_print_mnode_common (level+1) tpdf.flags tpdf.dsc tpdf.ref
  ++ yang_print_type (level+1) module tpdf.type
  ++ sp (level*2) ++ "\x7d\n"

/-- The for loops over tpdf arrays (containers, lists, groupings and the
module itself). -/
def yang_print_typedefs (level : Nat) (module : String) : List ly_tpdf → String
  | [] => ""
  | t :: ts => yang_print_typedef level module t ++ yang_print_typedefs level module ts

/-- struct ly_ident: name, owning module name, common header fields and
the optional base identity reference. -/
structure ly_ident where
  name : String
  mod_name : String
  flags : Nat
  dsc : Option String
  ref : Option String
  base : Option ly_ident_ref
deriving DecidableEq

/-- yang_print_identity: the base line is bare when the base identity's
module is the identity's own module, prefixed otherwise. -/
def yang_print_identity (level : Nat) (ident : ly_ident) : String :=
  sp (level*2) ++ "identity " ++ ident.name ++ " \x7b\n"
  ++ yang_print_mnode_common (level+1) ident.flags ident.dsc ident.ref
  ++ (match ident.base with
      | some b =>
        if b.mod_name = ident.mod_name then
          sp ((level+1)*2) ++ "base " ++ b.name ++ ";\n"
        else
          sp ((level+1)*2) ++ "base " ++ b.mod_pfx ++ ":" ++ b.name ++ ";\n"
      | none => "")
  ++ sp (level*2) ++ "\x7d\n"

/-- The for loop over module->ident. -/
def yang_print_idents (level : Nat) : List ly_ident → String
  | [] => ""
  | i :: is => yang_print_identity level i ++ yang_print_idents level is

/-- struct ly_mnode and its variant-specific extensions, flattened: the C
code accesses variant fields (leaf->type, list->keys, cont->tpdf, children)
after casting the common ly_mnode pointer according to nodetype, so the
embedding carries every such field and each printer reads only the ones its
C counterpart reads. parent_flags models the parent back-pointer (none for
NULL) through the only field ever read from it; mod_name models the owning
module back-pointer through its name; keys models list->keys through the
key leaves' names, the only field the printer reads. -/
inductive ly_mnode where
  | mk (nodetype : Nat) (name : String) (flags : Nat)
       (parent_flags : Option Nat) (mod_name : String)
       (dsc : Option String) (ref : Option String)
       (type : ly_type) (keys : List String)
       (tpdf : List ly_tpdf) (child : List ly_mnode) : ly_mnode

/-- mnode->nodetype. -/
def ly_mnode.nodetype : ly_mnode → Nat
  | .mk nt _ _ _ _ _ _ _ _ _ _ => nt

/-- mnode->name. -/
def ly_mnode.name : ly_mnode → String
  | .mk _ nm _ _ _ _ _ _ _ _ _ => nm

/-- mnode->flags. -/
def ly_mnode.flags : ly_mnode → Nat
  | .mk _ _ fl _ _ _ _ _ _ _ _ => fl

/-- mnode->parent (none for NULL), reduced to the parent's flag word. -/
def ly_mnode.parent_flags : ly_mnode → Option Nat
  | .mk _ _ _ pf _ _ _ _ _ _ _ => pf

/-- mnode->module, reduced to the module's name. -/
def ly_mnode.mod_name : ly_mnode → String
  | .mk _ _ _ _ mo _ _ _ _ _ _ => mo

/-- mnode->dsc. -/
def ly_mnode.dsc : ly_mnode → Option String
  | .mk _ _ _ _ _ d _ _ _ _ _ => d

/-- mnode->ref. -/
def ly_mnode.ref : ly_mnode → Option String
  | .mk _ _ _ _ _ _ r _ _ _ _ => r

/-- leaf->type / llist->type (meaningful for leaf and leaf-list kinds). -/
def ly_mnode.type : ly_mnode → ly_type
  | .mk _ _ _ _ _ _ _ t _ _ _ => t

/-- list->keys, as the key leaves' names in declared order. -/
def ly_mnode.keys : ly_mnode → List String
  | .mk _ _ _ _ _ _ _ _ k _ _ => k

/-- cont->tpdf / list->tpdf / grp->tpdf. -/
def ly_mnode.tpdf : ly_mnode → List ly_tpdf
  | .mk _ _ _ _ _ _ _ _ _ tp _ => tp

/-- mnode->child, the LY_TREE_FOR sibling chain of children. -/
def ly_mnode.child : ly_mnode → List ly_mnode
  | .mk _ _ _ _ _ _ _ _ _ _ ch => ch

theorem ly_mnode.sizeOf_child_lt (m : ly_mnode) : sizeOf m.child < sizeOf m := by
  cases m with
  | mk nt nm fl pf mo d r t k tp ch =>
    simp [ly_mnode.child]

/-- yang_print_leaf. -/
def yang_print_leaf (level : Nat) (mnode : ly_mnode) : String :=
  sp (level*2) ++ "leaf " ++ mnode.name ++ " \x7b\n"
  ++ yang_print_mnode_common2 (level+1) mnode.flags mnode.parent_flags mnode.dsc mnode.ref
  ++ yang_print_type (level+1) mnode.mod_name mnode.type
  ++ sp (level*2) ++ "\x7d\n"

/-- yang_print_leaflist. -/
def yang_print_leaflist (level : Nat) (mnode : ly_mnode) : String :=
  sp (level*2) ++ "leaf-list " ++ mnode.name ++ " \x7b\n"
  ++ yang_print_mnode_common2 (level+1) mnode.flags mnode.parent_flags mnode.dsc mnode.ref
  ++ yang_print_type (level+1) mnode.mod_name mnode.type
  ++ sp (level*2) ++ "\x7d\n"

/-- yang_print_uses. -/
def yang_print_uses (level : Nat) (mnode : ly_mnode) : String :=
  sp (level*2) ++ "uses " ++ mnode.name ++ " \x7b\n"
  ++ yang_print_mnode_common (level+1) mnode.flags mnode.dsc mnode.ref
  ++ sp (level*2) ++ "\x7d\n"

/-- The key loop of yang_print_list: each key name followed by a space
except after the last one. -/
def printKeys : List String → String
  | [] => ""
  | [k] => k
  | k :: ks => k ++ " " ++ printKeys ks

mutual

/-- yang_print_mnode: the dispatcher switching on nodetype & mask; a masked
value matching no case label falls through to the default and prints
nothing. -/
def yang_print_mnode (level : Nat) (mnode : ly_mnode) (mask : Nat) : String :=
  if mnode.nodetype &&& mask = LY_NODE_CONTAINER then
    yang_print_container level mnode
  else if mnode.nodetype &&& mask = LY_NODE_CHOICE then
    yang_print_choice level mnode
  else if mnode.nodetype &&& mask = LY_NODE_LEAF then
    yang_print_leaf level mnode
  else if mnode.nodetype &&& mask = LY_NODE_LEAFLIST then
    yang_print_leaflist level mnode
  else if mnode.nodetype &&& mask = LY_NODE_LIST then
    yang_print_list level mnode
  else if mnode.nodetype &&& mask = LY_NODE_USES then
    yang_print_uses level mnode
  else if mnode.nodetype &&& mask = LY_NODE_GROUPING then
    yang_print_grouping level mnode
  else ""
termination_by (sizeOf mnode, 1)

/-- yang_print_container. -/
def yang_print_container (level : Nat) (mnode : ly_mnode) : String :=
  sp (level*2) ++ "container " ++ mnode.name ++ " \x7b\n"
  ++ yang_print_mnode_common2 (level+1) mnode.flags mnode.parent_flags mnode.dsc mnode.ref
  ++ yang_print_typedefs (level+1) mnode.mod_name mnode.tpdf
  ++ yang_print_mnode_children (level+1) mnode.child LY_NODE_MASK_ALL
  ++ sp (level*2) ++ "\x7d\n"
termination_by (sizeOf mnode, 0)
decreasing_by
  exact Prod.Lex.left _ _ (ly_mnode.sizeOf_child_lt mnode)

/-- yang_print_choice: children restricted to container, leaf, leaf-list
and list. -/
def yang_print_choice (level : Nat) (mnode : ly_mnode) : String :=
  sp (level*2) ++ "choice " ++ mnode.name ++ " \x7b\n"
  ++ yang_print_mnode_common2 (level+1) mnode.flags mnode.parent_flags mnode.dsc mnode.ref
  ++ yang_print_mnode_children (level+1) mnode.child LY_NODE_MASK_CHOICE
  ++ sp (level*2) ++ "\x7d\n"
termination_by (sizeOf mnode, 0)
decreasing_by
  exact Prod.Lex.left _ _ (ly_mnode.sizeOf_child_lt mnode)

/-- yang_print_list: the key line only when keys_size is non-zero, then
local typedefs and children. -/
def yang_print_list (level : Nat) (mnode : ly_mnode) : String :=
  sp (level*2) ++ "list " ++ mnode.name ++ " \x7b\n"
  ++ yang_print_mnode_common2 (level+1) mnode.flags mnode.parent_flags mnode.dsc mnode.ref
  ++ (if mnode.keys.length ≠ 0 then
        sp ((level+1)*2) ++ "key \"" ++ printKeys mnode.keys ++ "\";\n"
      else "")
  ++ yang_print_typedefs (level+1) mnode.mod_name mnode.tpdf
  ++ yang_print_mnode_children (level+1) mnode.child LY_NODE_MASK_ALL
  ++ sp (level*2) ++ "\x7d\n"
termination_by (sizeOf mnode, 0)
decreasing_by
  exact Prod.Lex.left _ _ (ly_mnode.sizeOf_child_lt mnode)

/-- yang_print_grouping: common metadata (not config-aware), typedefs,
children. -/
def yang_print_grouping (level : Nat) (mnode : ly_mnode) : String :=
  sp (level*2) ++ "grouping " ++ mnode.name ++ " \x7b\n"
  ++ yang_print_mnode_common (level+1) mnode.flags mnode.dsc mnode.ref
  ++ yang_print_typedefs (level+1) mnode.mod_name mnode.tpdf
  ++ yang_print_mnode_children (level+1) mnode.child LY_NODE_MASK_ALL
  ++ sp (level*2) ++ "\x7d\n"
termination_by (sizeOf mnode, 0)
decreasing_by
  exact Prod.Lex.left _ _ (ly_mnode.sizeOf_child_lt mnode)

/-- The LY_TREE_FOR loops over child chains, dispatching each child. -/
def yang_print_mnode_children (level : Nat) (children : List ly_mnode) (mask : Nat) : String :=
  match children with
  | [] => ""
  | c :: cs => yang_print_mnode level c mask ++ yang_print_mnode_children level cs mask
termination_by (sizeOf children, 0)

end

/-- One entry of module->imp: the imported module's name, the prefix and
the fixed-size revision-date buffer (empty string for an unset rev[0]). -/
structure ly_import where
  mod_name : String
  pfx : String
  rev : String
deriving DecidableEq

/-- One entry of module->inc: the included submodule's name and the
revision-date buffer (empty string for an unset rev[0]). -/
structure ly_include where
  submodule_name : String
  rev : String
deriving DecidableEq

/-- One entry of module->rev: date plus optional description/reference. -/
structure ly_revision where
  date : String
  dsc : Option String
  ref : Option String
deriving DecidableEq

/-- struct ly_module, with the fields yang_print_model reads. version 0
means unset (not printed); data is the top-level sibling chain. -/
structure ly_module where
  name : String
  ns : String
  pfx : String
  version : Nat
  imp : List ly_import
  inc : List ly_include
  org : Option String
  contact : Option String
  dsc : Option String
  ref : Option String
  rev : List ly_revision
  ident : List ly_ident
  tpdf : List ly_tpdf
  data : List ly_mnode

/-- The import loop of yang_print_model: header, prefix text block, the
revision-date text block only when imp[i].rev[0] is set, closing brace. -/
def yang_print_model_imps (level : Nat) : List ly_import → String
  | [] => ""
  | im :: rest =>
    sp (level*2) ++ "import \"" ++ im.mod_name ++ "\" \x7b\n"
    ++ yang_print_text (level+1) ("prefix") im.pfx
    ++ (if im.rev ≠ "" then yang_print_text (level+1) ("revision-date") im.rev else "")
    ++ sp (level*2) ++ "\x7d\n"
    ++ yang_print_model_imps level rest

/-- The include loop of yang_print_model: i is the C loop index running
over module->inc. When inc[i].rev[0] is set, the block form is emitted and
— exactly as in the source — the revision-date text printed is
module->imp[i].rev, the i-th entry of the IMPORT array (out-of-range reads,
undefined in C, are modelled by getD with an empty entry); otherwise the
single-line include form is emitted. -/
def yang_print_model_incs (level : Nat) (imp : List ly_import) :
    Nat → List ly_include → String
  | _, [] => ""
  | i, inc :: rest =>
    (if inc.rev ≠ "" then
       sp (level*2) ++ "include \"" ++ inc.submodule_name ++ "\" \x7b\n"
       ++ yang_print_text (level+1) ("revision-date")
            ((imp.getD i { mod_name := "", pfx := "", rev := "" }).rev)
       ++ sp (level*2) ++ "\x7d\n"
     else
       sp (level*2) ++ "include \"" ++ inc.submodule_name ++ "\";\n")
    ++ yang_print_model_incs level imp (i+1) rest

/-- The revision loop of yang_print_model: the block form when a
description or reference is present, otherwise the quoted-text form
produced by yang_print_text with label revision. -/
def yang_print_model_revs (level : Nat) : List ly_revision → String
  | [] => ""
  | r :: rest =>
    (if r.dsc.isSome ∨ r.ref.isSome then
       sp (level*2) ++ "revision \"" ++ r.date ++ "\" \x7b\n"
       ++ (match r.dsc with
           | some d => yang_print_text (level+1) ("description") d
           | none => "")
       ++ (match r.ref with
           | some rf => yang_print_text (level+1) ("reference") rf
           | none => "")
       ++ sp (level*2) ++ "\x7d\n"
     else
       yang_print_text level ("revision") r.date)
    ++ yang_print_model_revs level rest

/-- The full byte sequence yang_print_model hands to fprintf, in order:
module header, namespace, prefix, optional yang-version, imports, includes,
organization, contact, description, reference, revisions, identities,
typedefs, top-level nodes, closing brace. -/
def yang_print_model_out (m : ly_module) : String :=
  "module " ++ m.name ++ " \x7b\n"
  ++ sp 2 ++ "namespace \"" ++ m.ns ++ "\";\n"
  ++ sp 2 ++ "prefix \"" ++ m.pfx ++ "\";\n"
  ++ (if m.version ≠ 0 then
        sp 2 ++ "yang-version \"" ++ (if m.version = 1 then "1.0" else "1.1") ++ "\";\n"
      else "")
  ++ yang_print_model_imps 1 m.imp
  ++ yang_print_model_incs 1 m.imp 0 m.inc
  ++ (match m.org with
      | some o => yang_print_text 1 ("organization") o
      | none => "")
  ++ (match m.contact with
      | some c => yang_print_text 1 ("contact") c
      | none => "")
  ++ (match m.dsc with
      | some d => yang_print_text 1 ("description") d
      | none => "")
  ++ (match m.ref with
      | some r => yang_print_text 1 ("reference") r
      | none => "")
  ++ yang_print_model_revs 1 m.rev
  ++ yang_print_idents 1 m.ident
  ++ yang_print_typedefs 1 m.name m.tpdf
  ++ yang_print_mnode_children 1 m.data LY_NODE_MASK_ALL
  ++ "\x7d\n"

/-- The FILE sink: fail is true when the output destination is in error
(writes to it fail and are lost), out is what has been written. -/
structure SinkState where
  fail : Bool
  out : String
deriving DecidableEq

/-- A write to the sink: appends when the sink is healthy; a failing sink
drops the payload (the write fails). The C code never inspects any fprintf
return value, so no further sink state is observable. -/
def fwrite_s (st : SinkState) (s : String) : SinkState :=
  if st.fail then st else { st with out := st.out ++ s }

/-- EXIT_SUCCESS from stdlib.h. -/
def EXIT_SUCCESS : Int := 0

/-- yang_print_model: writes the whole textual representation to the sink
and returns EXIT_SUCCESS. The source checks no fprintf result, so the
status is the same constant on every path. -/
def yang_print_model (f : SinkState) (module : ly_module) : SinkState × Int :=
  (fwrite_s f (yang_print_model_out module), EXIT_SUCCESS)

/-! Helper lemmas. -/

theorem sp_data (n : Nat) : (sp n).data = List.replicate n ' ' := by
  induction n with
  | zero => rfl
  | succ k ih =>
    simp [sp, List.replicate_succ]
    exact ih

theorem splitPhysicalLines_ne_nil (cs : List Char) : splitPhysicalLines cs ≠ [] := by
  cases cs with
  | nil => simp [splitPhysicalLines]
  | cons c cs =>
    by_cases hc : c = '\n'
    · simp [splitPhysicalLines, hc]
    · simp only [splitPhysicalLines, if_neg hc]
      cases h : splitPhysicalLines cs <;> simp

/-- The strchr/fwrite loop of yang_print_text produces exactly the text
split into physical lines and rejoined with the indentation inserted after
every newline. -/
theorem textLoopL_eq_reindent (ind : List Char) (cs : List Char) :
    textLoopL ind cs = reindentLines ind (splitPhysicalLines cs) := by
  induction cs with
  | nil => rfl
  | cons c cs ih =>
    by_cases hc : c = '\n'
    · subst hc
      simp only [textLoopL, if_pos rfl, splitPhysicalLines]
      obtain ⟨l, ls, hls⟩ : ∃ l ls, splitPhysicalLines cs = l :: ls := by
        cases h : splitPhysicalLines cs with
        | nil => exact absurd h (splitPhysicalLines_ne_nil cs)
        | cons l ls => exact ⟨l, ls, rfl⟩
      rw [ih, hls]
      simp [reindentLines]
    · simp only [textLoopL, if_neg hc, splitPhysicalLines]
      obtain ⟨l, ls, hls⟩ : ∃ l ls, splitPhysicalLines cs = l :: ls := by
        cases h : splitPhysicalLines cs with
        | nil => exact absurd h (splitPhysicalLines_ne_nil cs)
        | cons l ls => exact ⟨l, ls, rfl⟩
      rw [ih, hls]
      cases ls with
      | nil => simp [reindentLines]
      | cons l2 ls2 => simp [reindentLines]

theorem intercalate_go_append (s : String) (as : List String) (acc₁ acc₂ : String) :
    String.intercalate.go (acc₁ ++ acc₂) s as = acc₁ ++ String.intercalate.go acc₂ s as := by
  induction as generalizing acc₂ with
  | nil => rfl
  | cons a as ih =>
    show String.intercalate.go (acc₁ ++ acc₂ ++ s ++ a) s as = _
    rw [String.append_assoc, String.append_assoc, ← String.append_assoc acc₂ s a, ih]
    rfl

/-- The conditional-separator key loop of yang_print_list joins the key
names with single spaces in declared order. -/
theorem printKeys_eq_intercalate (ks : List String) :
    printKeys ks = String.intercalate (" ") ks := by
  induction ks with
  | nil => rfl
  | cons k ks ih =>
    cases ks with
    | nil => rfl
    | cons k2 ks2 =>
      show k ++ " " ++ printKeys (k2 :: ks2) = String.intercalate (" ") (k :: k2 :: ks2)
      rw [ih]
      show _ = String.intercalate.go (k ++ " " ++ k2) (" ") ks2
      rw [intercalate_go_append (" ") ks2 (k ++ " ") k2]
      rfl

/-! Claims. -/

/-- Claim C7: every call of the multi-line text printer emits the label on
its own line at the current indentation and the body one level deeper,
wrapped in double quotes and terminated by a quote and semicolon, with
every physical line of a multi-line input individually re-indented to that
deeper level and line breaks preserved verbatim; in particular, for
description text line1-newline-line2 at indentation level 2 the emitted
block is exactly the specification's example block, each physical line
(including the first) indented to 6 spaces, the quote opened before line1
and closed after line2. -/
theorem yang_print_text_reindents_every_line :
    (∀ (level : Nat) (name text : String),
      yang_print_text level name text =
        sp (level*2) ++ name ++ "\n"
        ++ sp ((level+1)*2) ++ "\""
        ++ String.mk (reindentLines (sp ((level+1)*2)).data (splitPhysicalLines text.data))
        ++ "\";\n\n")
    ∧ yang_print_text 2 ("description") ("line1\nline2")
        = "    description\n      \"line1\n      line2\";\n\n" := by
  constructor
  · intro level name text
    rw [yang_print_text, textLoopL_eq_reindent]
  · decide

/-- A minimal concrete module used to exercise the entry point. -/
def moduleEmpty : ly_module :=
  { name := "m1", ns := "urn:m1", pfx := "m", version := 0,
    imp := [], inc := [], org := none, contact := none, dsc := none,
    ref := none, rev := [], ident := [], tpdf := [], data := [] }

/-- Claim C1, counterexample: a sink in the failing state (every write to
it fails and its payload is lost — the emitted document never reaches the
destination) still makes the print entry point return 0, refuting the
claim's "returns a status that is non-zero when a sink write fails". -/
theorem yang_print_model_zero_status_on_failing_sink :
    (SinkState.mk true "").fail = true
    ∧ (yang_print_model (SinkState.mk true "") moduleEmpty).2 = 0
    ∧ (yang_print_model (SinkState.mk true "") moduleEmpty).1.out = "" :=
  ⟨rfl, rfl, rfl⟩

/-- Claim C1, amended: yang_print_model returns EXIT_SUCCESS (0) for every
module and sink, whether or not the sink fails; sink-write failures are
neither detected nor propagated (no fprintf result is ever checked), the
whole walk always runs to completion, and the call reports success also
when the sink does not fail. -/
theorem yang_print_model_always_exit_success (f : SinkState) (m : ly_module) :
    (yang_print_model f m).2 = EXIT_SUCCESS
    ∧ (yang_print_model f m).1 = fwrite_s f (yang_print_model_out m) :=
  ⟨rfl, rfl⟩

/-- Claim C2: evaluation at the failing input — a module whose import list
carries revision-date 1111-11-11 while its single include entry's own
revision-date is 2222-22-22. The emitted include block quotes 1111-11-11
(module->imp[i].rev, read inside the include loop of the source) and the
include entry's own revision-date never appears in the output. -/
theorem include_block_prints_import_revision :
    yang_print_model_incs 1 [{ mod_name := "om", pfx := "op", rev := "1111-11-11" }] 0
        [{ submodule_name := "sub", rev := "2222-22-22" }]
      = "  include \"sub\" \x7b\n    revision-date\n      \"1111-11-11\";\n\n  \x7d\n"
    ∧ ¬ ("2222-22-22".data <:+:
        ("  include \"sub\" \x7b\n    revision-date\n      \"1111-11-11\";\n\n  \x7d\n").data) := by
  constructor
  · decide
  · decide

/-- Claim C3 (under the spec's data-model invariant that the type's prefix
field is set exactly when the type is imported from another module, tree.h
itself not being among the given sources): the emitted type name is
preceded by the prefix and a colon exactly when the derived-type
definition's owning module differs from the module being printed, and is
bare otherwise. -/
theorem yang_print_type_cross_module_qualification
    (level : Nat) (module : String) (t : ly_type)
    (hinv : t.pfx.isSome ↔ t.der_mod_name ≠ module) :
    yang_print_type level module t =
      sp (level*2) ++ "type "
      ++ (if t.der_mod_name ≠ module then t.pfx.getD "" ++ ":" else "")
      ++ t.der_name ++ " \x7b\n"
      ++ yang_print_type_body (level+1) module t
      ++ sp (level*2) ++ "\x7d\n" := by
  by_cases h : t.der_mod_name = module
  · have hnone : t.pfx = none := by
      cases hp : t.pfx with
      | none => rfl
      | some p => exact absurd (hinv.mp (by simp [hp])) (by simp [h])
    rw [yang_print_type, hnone]
    simp [h, String.append_assoc]
  · obtain ⟨p, hp⟩ := Option.isSome_iff_exists.mp (hinv.mpr h)
    rw [yang_print_type, hp]
    simp [h, hp, String.append_assoc]

/-- A concrete cross-module type for the C3 witness. -/
def typeCross : ly_type :=
  { pfx := some "op", der_name := "mytype", der_mod_name := "othermod",
    base := .LY_TYPE_OTHER, enums := [],
    ident := { name := "", mod_name := "", mod_pfx := "" } }

/-- Witness for claim C3 at a concrete cross-module type. -/
theorem yang_print_type_cross_module_qualification_witness :
    yang_print_type 0 ("m1") typeCross =
      sp (0*2) ++ "type "
      ++ (if typeCross.der_mod_name ≠ "m1" then typeCross.pfx.getD "" ++ ":" else "")
      ++ typeCross.der_name ++ " \x7b\n"
      ++ yang_print_type_body (0+1) ("m1") typeCross
      ++ sp (0*2) ++ "\x7d\n" :=
  yang_print_type_cross_module_qualification 0 ("m1") typeCross (by decide)

/-- Claim C4, counterexample: a child node with no config bit set under a
writable parent has a config flag that differs from its parent's, yet the
config-aware printer emits no config line at all for it (its whole output
here is empty), refuting "for a child whose flag differs ... the config
line is present with the correct value". -/
theorem config_differs_but_unset_prints_nothing :
    (LY_NODE_CONFIG_W &&& LY_NODE_CONFIG_MASK ≠ (0 : Nat) &&& LY_NODE_CONFIG_MASK)
    ∧ yang_print_mnode_common2 1 0 (some LY_NODE_CONFIG_W) none none = "" := by
  constructor
  · decide
  · decide

/-- Claim C4, amended: a config line is emitted only if the node has no
parent or its config bits differ from the parent's; a child agreeing with
its parent gets no config line; and for a root node or a differing child
the line reads config true when the writable bit is set, config false when
instead the read-only bit is set, while a node with neither bit set gets
no config line even then. -/
theorem config_line_emission_rules (level flags : Nat) (pf : Option Nat)
    (dsc ref : Option String) :
    (∀ p, pf = some p → p &&& LY_NODE_CONFIG_MASK = flags &&& LY_NODE_CONFIG_MASK →
        yang_print_mnode_common2 level flags pf dsc ref =
          yang_print_mnode_common level flags dsc ref)
    ∧ ((pf.isNone ∨ pf.getD 0 &&& LY_NODE_CONFIG_MASK ≠ flags &&& LY_NODE_CONFIG_MASK) →
        ((flags &&& LY_NODE_CONFIG_W ≠ 0 →
            yang_print_mnode_common2 level flags pf dsc ref =
              sp (level*2) ++ "config \"true\";\n"
              ++ yang_print_mnode_common level flags dsc ref)
         ∧ (flags &&& LY_NODE_CONFIG_W = 0 → flags &&& LY_NODE_CONFIG_R ≠ 0 →
            yang_print_mnode_common2 level flags pf dsc ref =
              sp (level*2) ++ "config \"false\";\n"
              ++ yang_print_mnode_common level flags dsc ref)
         ∧ (flags &&& LY_NODE_CONFIG_W = 0 → flags &&& LY_NODE_CONFIG_R = 0 →
            yang_print_mnode_common2 level flags pf dsc ref =
              yang_print_mnode_common level flags dsc ref))) := by
  refine ⟨?_, ?_⟩
  · intro p hp heq
    have hno : ¬ (pf.isNone ∨
        pf.getD 0 &&& LY_NODE_CONFIG_MASK ≠ flags &&& LY_NODE_CONFIG_MASK) := by
      simp [hp, heq]
    rw [yang_print_mnode_common2, if_neg hno, String.empty_append]
  · intro hcond
    refine ⟨?_, ?_, ?_⟩
    · intro hw
      rw [yang_print_mnode_common2, if_pos hcond, if_pos hw, String.append_assoc]
    · intro hw hr
      rw [yang_print_mnode_common2, if_pos hcond, if_neg (not_ne_iff.mpr hw),
        if_pos hr, String.append_assoc]
    · intro hw hr
      rw [yang_print_mnode_common2, if_pos hcond, if_neg (not_ne_iff.mpr hw),
        if_neg (not_ne_iff.mpr hr), String.empty_append]

/-- Witness for the amended C4 at a root node with the writable bit set. -/
theorem config_line_emission_rules_witness :
    yang_print_mnode_common2 1 LY_NODE_CONFIG_W none none none =
      sp (1*2) ++ "config \"true\";\n"
      ++ yang_print_mnode_common 1 LY_NODE_CONFIG_W none none :=
  ((config_line_emission_rules 1 LY_NODE_CONFIG_W none none none).2
    (Or.inl rfl)).1 (by decide)

/-- Claim C10: a node whose config flag is unset (neither the writable nor
the read-only bit set) produces no config line — the config-aware printer
output equals the plain common printer output, in particular for a root
node — and whenever the two outputs differ, the node is a root or differs
from its parent and one of the two config bits is actually set. -/
theorem config_line_needs_set_bit (level flags : Nat) (pf : Option Nat)
    (dsc ref : Option String) :
    (flags &&& LY_NODE_CONFIG_MASK = 0 →
      yang_print_mnode_common2 level flags pf dsc ref =
        yang_print_mnode_common level flags dsc ref)
    ∧ (yang_print_mnode_common2 level flags pf dsc ref ≠
        yang_print_mnode_common level flags dsc ref →
       (pf.isNone ∨ pf.getD 0 &&& LY_NODE_CONFIG_MASK ≠ flags &&& LY_NODE_CONFIG_MASK)
       ∧ (flags &&& LY_NODE_CONFIG_W ≠ 0 ∨ flags &&& LY_NODE_CONFIG_R ≠ 0)) := by
  constructor
  · intro h
    have h1 : flags &&& LY_NODE_CONFIG_W = 0 := by
      have h' : flags &&& LY_NODE_CONFIG_MASK &&& LY_NODE_CONFIG_W = 0 &&& LY_NODE_CONFIG_W :=
        congrArg (· &&& LY_NODE_CONFIG_W) h
      rw [Nat.and_assoc,
        show LY_NODE_CONFIG_MASK &&& LY_NODE_CONFIG_W = LY_NODE_CONFIG_W from by decide,
        show (0 : Nat) &&& LY_NODE_CONFIG_W = 0 from by decide] at h'
      exact h'
    have h2 : flags &&& LY_NODE_CONFIG_R = 0 := by
      have h' : flags &&& LY_NODE_CONFIG_MASK &&& LY_NODE_CONFIG_R = 0 &&& LY_NODE_CONFIG_R :=
        congrArg (· &&& LY_NODE_CONFIG_R) h
      rw [Nat.and_assoc,
        show LY_NODE_CONFIG_MASK &&& LY_NODE_CONFIG_R = LY_NODE_CONFIG_R from by decide,
        show (0 : Nat) &&& LY_NODE_CONFIG_R = 0 from by decide] at h'
      exact h'
    simp [yang_print_mnode_common2, h1, h2]
  · intro hne
    by_cases hcond : (pf.isNone ∨
        pf.getD 0 &&& LY_NODE_CONFIG_MASK ≠ flags &&& LY_NODE_CONFIG_MASK)
    · refine ⟨hcond, ?_⟩
      by_contra hb
      push_neg at hb
      exact hne (by
        rw [yang_print_mnode_common2, if_pos hcond, if_neg (not_ne_iff.mpr hb.1),
          if_neg (not_ne_iff.mpr hb.2), String.empty_append])
    · exact absurd (by rw [yang_print_mnode_common2, if_neg hcond, String.empty_append]) hne

/-- Witness for C10 at a root node with no config bit set. -/
theorem config_line_needs_set_bit_witness :
    yang_print_mnode_common2 1 0 none none none =
      yang_print_mnode_common 1 0 none none :=
  (config_line_needs_set_bit 1 0 none none none).1 (by decide)

/-- Claim C9: the common-metadata printer emits at most one status line
even when several status flag bits are set simultaneously — current takes
precedence over deprecated, which takes precedence over obsolete — and no
status line when no status bit is set (stated for a node with no
description and no reference, whose common output is exactly the status
fragment). -/
theorem status_line_precedence (level flags : Nat) :
    ((yang_print_mnode_common level flags none none).data.count '\n' ≤ 1)
    ∧ (flags &&& LY_NODE_STATUS_CURR ≠ 0 →
        yang_print_mnode_common level flags none none =
          sp (level*2) ++ "status \"current\";\n")
    ∧ (flags &&& LY_NODE_STATUS_CURR = 0 → flags &&& LY_NODE_STATUS_DEPRC ≠ 0 →
        yang_print_mnode_common level flags none none =
          sp (level*2) ++ "status \"deprecated\";\n")
    ∧ (flags &&& LY_NODE_STATUS_CURR = 0 → flags &&& LY_NODE_STATUS_DEPRC = 0 →
        flags &&& LY_NODE_STATUS_OBSLT ≠ 0 →
        yang_print_mnode_common level flags none none =
          sp (level*2) ++ "status \"obsolete\";\n")
    ∧ (flags &&& LY_NODE_STATUS_CURR = 0 → flags &&& LY_NODE_STATUS_DEPRC = 0 →
        flags &&& LY_NODE_STATUS_OBSLT = 0 →
        yang_print_mnode_common level flags none none = "") := by
  have hc : ∀ hC : flags &&& LY_NODE_STATUS_CURR ≠ 0,
      yang_print_mnode_common level flags none none =
        sp (level*2) ++ "status \"current\";\n" := by
    intro hC
    rw [yang_print_mnode_common, if_pos hC]
    simp
  have hd : ∀ (_ : flags &&& LY_NODE_STATUS_CURR = 0)
      (_ : flags &&& LY_NODE_STATUS_DEPRC ≠ 0),
      yang_print_mnode_common level flags none none =
        sp (level*2) ++ "status \"deprecated\";\n" := by
    intro h1 h2
    rw [yang_print_mnode_common, if_neg (not_ne_iff.mpr h1), if_pos h2]
    simp
  have ho : ∀ (_ : flags &&& LY_NODE_STATUS_CURR = 0)
      (_ : flags &&& LY_NODE_STATUS_DEPRC = 0)
      (_ : flags &&& LY_NODE_STATUS_OBSLT ≠ 0),
      yang_print_mnode_common level flags none none =
        sp (level*2) ++ "status \"obsolete\";\n" := by
    intro h1 h2 h3
    rw [yang_print_mnode_common, if_neg (not_ne_iff.mpr h1),
      if_neg (not_ne_iff.mpr h2), if_pos h3]
    simp
  have hn : ∀ (_ : flags &&& LY_NODE_STATUS_CURR = 0)
      (_ : flags &&& LY_NODE_STATUS_DEPRC = 0)
      (_ : flags &&& LY_NODE_STATUS_OBSLT = 0),
      yang_print_mnode_common level flags none none = "" := by
    intro h1 h2 h3
    rw [yang_print_mnode_common, if_neg (not_ne_iff.mpr h1),
      if_neg (not_ne_iff.mpr h2), if_neg (not_ne_iff.mpr h3)]
    simp
  have hsp : ∀ s : String, (sp (level*2) ++ s).data.count '\n' = s.data.count '\n' := by
    intro s
    rw [String.data_append, List.count_append, sp_data, List.count_replicate]
    simp
  refine ⟨?_, hc, hd, ho, hn⟩
  by_cases h1 : flags &&& LY_NODE_STATUS_CURR = 0
  · by_cases h2 : flags &&& LY_NODE_STATUS_DEPRC = 0
    · by_cases h3 : flags &&& LY_NODE_STATUS_OBSLT = 0
      · rw [hn h1 h2 h3]
        decide
      · rw [ho h1 h2 h3, hsp]
        decide
    · rw [hd h1 h2, hsp]
      decide
  · rw [hc h1, hsp]
    decide

/-- Witness for C9 at a node with all three status bits set: a single
status line, reading current. -/
theorem status_line_precedence_witness :
    yang_print_mnode_common 1
        (LY_NODE_STATUS_CURR ||| LY_NODE_STATUS_DEPRC ||| LY_NODE_STATUS_OBSLT)
        none none =
      sp (1*2) ++ "status \"current\";\n" :=
  (status_line_precedence 1
    (LY_NODE_STATUS_CURR ||| LY_NODE_STATUS_DEPRC ||| LY_NODE_STATUS_OBSLT)).2.1
    (by decide)

/-- Claim C8, counterexample: a revision entry with no description and no
reference is not emitted in a single-line form — the emitted entry spans
several physical lines (the label line, the quoted date on the next line
and a trailing blank line: three newlines in all). -/
theorem revision_without_meta_not_single_line :
    yang_print_model_revs 1 [{ date := "2020-02-02", dsc := none, ref := none }]
      = "  revision\n    \"2020-02-02\";\n\n"
    ∧ ("  revision\n    \"2020-02-02\";\n\n").data.count '\n' = 3 := by
  constructor
  · decide
  · decide

/-- Claim C8, amended: each revision entry is emitted either — when it has
no description and no reference — through the quoted-text form (the label
revision on one line, the quoted date re-indented on the next line,
followed by a blank line; not a single-line form), or in a block form
(revision and its date on the opening line, a braced body holding its
description and/or reference) when at least one of them is present. -/
theorem revision_entry_forms (level : Nat) (r : ly_revision) (rest : List ly_revision) :
    (r.dsc = none → r.ref = none →
      yang_print_model_revs level (r :: rest) =
        yang_print_text level ("revision") r.date ++ yang_print_model_revs level rest)
    ∧ ((r.dsc.isSome ∨ r.ref.isSome) →
      yang_print_model_revs level (r :: rest) =
        sp (level*2) ++ "revision \"" ++ r.date ++ "\" \x7b\n"
        ++ (match r.dsc with
            | some d => yang_print_text (level+1) ("description") d
            | none => "")
        ++ (match r.ref with
            | some rf => yang_print_text (level+1) ("reference") rf
            | none => "")
        ++ sp (level*2) ++ "\x7d\n"
        ++ yang_print_model_revs level rest) := by
  constructor
  · intro h1 h2
    rw [yang_print_model_revs, if_neg (by simp [h1, h2])]
  · intro h
    rw [yang_print_model_revs, if_pos h]

/-- Witness for the amended C8 at a revision with a description. -/
theorem revision_entry_forms_witness :
    yang_print_model_revs 1 [{ date := "2020-03-03", dsc := some "d", ref := none }] =
      sp (1*2) ++ "revision \"" ++ "2020-03-03" ++ "\" \x7b\n"
      ++ yang_print_text (1+1) ("description") "d"
      ++ ""
      ++ sp (1*2) ++ "\x7d\n"
      ++ yang_print_model_revs 1 [] :=
  (revision_entry_forms 1 { date := "2020-03-03", dsc := some "d", ref := none } []).2
    (Or.inl rfl)

/-- Claim C5: a list node emits a single-line key statement listing the
key leaf names space-separated in their declared order exactly when the
key set is non-empty; a list with no keys emits no key line; and the
conditional-separator loop preserves declared order, never re-sorting
(k2 k1 k3 stays k2 k1 k3). -/
theorem list_key_line (level : Nat) (m : ly_mnode) :
    (m.keys ≠ [] →
      yang_print_list level m =
        sp (level*2) ++ "list " ++ m.name ++ " \x7b\n"
        ++ yang_print_mnode_common2 (level+1) m.flags m.parent_flags m.dsc m.ref
        ++ (sp ((level+1)*2) ++ "key \"" ++ String.intercalate (" ") m.keys ++ "\";\n")
        ++ yang_print_typedefs (level+1) m.mod_name m.tpdf
        ++ yang_print_mnode_children (level+1) m.child LY_NODE_MASK_ALL
        ++ sp (level*2) ++ "\x7d\n")
    ∧ (m.keys = [] →
      yang_print_list level m =
        sp (level*2) ++ "list " ++ m.name ++ " \x7b\n"
        ++ yang_print_mnode_common2 (level+1) m.flags m.parent_flags m.dsc m.ref
        ++ yang_print_typedefs (level+1) m.mod_name m.tpdf
        ++ yang_print_mnode_children (level+1) m.child LY_NODE_MASK_ALL
        ++ sp (level*2) ++ "\x7d\n")
    ∧ printKeys (["k2", "k1", "k3"]) = "k2 k1 k3" := by
  refine ⟨?_, ?_, by decide⟩
  · intro h
    rw [yang_print_list, if_pos (fun hl => h (List.length_eq_zero.mp hl)),
      printKeys_eq_intercalate]
  · intro h
    rw [yang_print_list, if_neg (not_ne_iff.mpr (by rw [h]; rfl))]
    simp [String.append_assoc]

/-- An all-default type payload for nodes whose printer never reads the
type field. -/
def typeNull : ly_type :=
  { pfx := none, der_name := "string", der_mod_name := "m1",
    base := .LY_TYPE_OTHER, enums := [],
    ident := { name := "", mod_name := "", mod_pfx := "" } }

/-- A concrete list node with unsorted keys for the C5 witness. -/
def nodeList : ly_mnode :=
  .mk LY_NODE_LIST "lst" 0 none "m1" none none typeNull ["k2", "k1", "k3"] [] []

/-- Witness for C5 at a list whose keys are declared as k2, k1, k3. -/
theorem list_key_line_witness :
    yang_print_list 0 nodeList =
      sp (0*2) ++ "list " ++ nodeList.name ++ " \x7b\n"
      ++ yang_print_mnode_common2 (0+1) nodeList.flags nodeList.parent_flags nodeList.dsc nodeList.ref
      ++ (sp ((0+1)*2) ++ "key \"" ++ String.intercalate (" ") nodeList.keys ++ "\";\n")
      ++ yang_print_typedefs (0+1) nodeList.mod_name nodeList.tpdf
      ++ yang_print_mnode_children (0+1) nodeList.child LY_NODE_MASK_ALL
      ++ sp (0*2) ++ "\x7d\n" :=
  (list_key_line 0 nodeList).1 (by decide)

/-- Claim C6: inside a choice block a child is dispatched only when its
variant is container, leaf, leaf-list or list: every child of an excluded
variant — choice, uses or grouping — produces no output anywhere (silently
skipped, not an error), each child of an included variant is handed to
that variant's printer, and concretely a choice whose children are a
grouping and a leaf prints the leaf normally and the grouping nowhere. -/
theorem choice_child_mask_filtering :
    (∀ (level : Nat) (m : ly_mnode),
      (m.nodetype = LY_NODE_CHOICE ∨ m.nodetype = LY_NODE_USES ∨
        m.nodetype = LY_NODE_GROUPING) →
      yang_print_mnode level m LY_NODE_MASK_CHOICE = "")
    ∧ (∀ (level : Nat) (m : ly_mnode),
        (m.nodetype = LY_NODE_CONTAINER →
          yang_print_mnode level m LY_NODE_MASK_CHOICE = yang_print_container level m)
        ∧ (m.nodetype = LY_NODE_LEAF →
          yang_print_mnode level m LY_NODE_MASK_CHOICE = yang_print_leaf level m)
        ∧ (m.nodetype = LY_NODE_LEAFLIST →
          yang_print_mnode level m LY_NODE_MASK_CHOICE = yang_print_leaflist level m)
        ∧ (m.nodetype = LY_NODE_LIST →
          yang_print_mnode level m LY_NODE_MASK_CHOICE = yang_print_list level m))
    ∧ (∀ (level : Nat) (ch g l : ly_mnode),
        g.nodetype = LY_NODE_GROUPING → l.nodetype = LY_NODE_LEAF →
        ch.child = [g, l] →
        yang_print_choice level ch =
          sp (level*2) ++ "choice " ++ ch.name ++ " \x7b\n"
          ++ yang_print_mnode_common2 (level+1) ch.flags ch.parent_flags ch.dsc ch.ref
          ++ yang_print_leaf (level+1) l
          ++ sp (level*2) ++ "\x7d\n") := by
  have hskip : ∀ (lv : Nat) (m : ly_mnode),
      (m.nodetype = LY_NODE_CHOICE ∨ m.nodetype = LY_NODE_USES ∨
        m.nodetype = LY_NODE_GROUPING) →
      yang_print_mnode lv m LY_NODE_MASK_CHOICE = "" := by
    intro lv m hm
    rcases hm with h | h | h
    · rw [yang_print_mnode, h,
        if_neg (show ¬(LY_NODE_CHOICE &&& LY_NODE_MASK_CHOICE = LY_NODE_CONTAINER) from by decide),
        if_neg (show ¬(LY_NODE_CHOICE &&& LY_NODE_MASK_CHOICE = LY_NODE_CHOICE) from by decide),
        if_neg (show ¬(LY_NODE_CHOICE &&& LY_NODE_MASK_CHOICE = LY_NODE_LEAF) from by decide),
        if_neg (show ¬(LY_NODE_CHOICE &&& LY_NODE_MASK_CHOICE = LY_NODE_LEAFLIST) from by decide),
        if_neg (show ¬(LY_NODE_CHOICE &&& LY_NODE_MASK_CHOICE = LY_NODE_LIST) from by decide),
        if_neg (show ¬(LY_NODE_CHOICE &&& LY_NODE_MASK_CHOICE = LY_NODE_USES) from by decide),
        if_neg (show ¬(LY_NODE_CHOICE &&& LY_NODE_MASK_CHOICE = LY_NODE_GROUPING) from by decide)]
    · rw [yang_print_mnode, h,
        if_neg (show ¬(LY_NODE_USES &&& LY_NODE_MASK_CHOICE = LY_NODE_CONTAINER) from by decide),
        if_neg (show ¬(LY_NODE_USES &&& LY_NODE_MASK_CHOICE = LY_NODE_CHOICE) from by decide),
        if_neg (show ¬(LY_NODE_USES &&& LY_NODE_MASK_CHOICE = LY_NODE_LEAF) from by decide),
        if_neg (show ¬(LY_NODE_USES &&& LY_NODE_MASK_CHOICE = LY_NODE_LEAFLIST) from by decide),
        if_neg (show ¬(LY_NODE_USES &&& LY_NODE_MASK_CHOICE = LY_NODE_LIST) from by decide),
        if_neg (show ¬(LY_NODE_USES &&& LY_NODE_MASK_CHOICE = LY_NODE_USES) from by decide),
        if_neg (show ¬(LY_NODE_USES &&& LY_NODE_MASK_CHOICE = LY_NODE_GROUPING) from by decide)]
    · rw [yang_print_mnode, h,
        if_neg (show ¬(LY_NODE_GROUPING &&& LY_NODE_MASK_CHOICE = LY_NODE_CONTAINER) from by decide),
        if_neg (show ¬(LY_NODE_GROUPING &&& LY_NODE_MASK_CHOICE = LY_NODE_CHOICE) from by decide),
        if_neg (show ¬(LY_NODE_GROUPING &&& LY_NODE_MASK_CHOICE = LY_NODE_LEAF) from by decide),
        if_neg (show ¬(LY_NODE_GROUPING &&& LY_NODE_MASK_CHOICE = LY_NODE_LEAFLIST) from by decide),
        if_neg (show ¬(LY_NODE_GROUPING &&& LY_NODE_MASK_CHOICE = LY_NODE_LIST) from by decide),
        if_neg (show ¬(LY_NODE_GROUPING &&& LY_NODE_MASK_CHOICE = LY_NODE_USES) from by decide),
        if_neg (show ¬(LY_NODE_GROUPING &&& LY_NODE_MASK_CHOICE = LY_NODE_GROUPING) from by decide)]
  have hleaf : ∀ (lv : Nat) (m : ly_mnode), m.nodetype = LY_NODE_LEAF →
      yang_print_mnode lv m LY_NODE_MASK_CHOICE = yang_print_leaf lv m := by
    intro lv m h
    rw [yang_print_mnode, h,
      if_neg (show ¬(LY_NODE_LEAF &&& LY_NODE_MASK_CHOICE = LY_NODE_CONTAINER) from by decide),
      if_neg (show ¬(LY_NODE_LEAF &&& LY_NODE_MASK_CHOICE = LY_NODE_CHOICE) from by decide),
      if_pos (show LY_NODE_LEAF &&& LY_NODE_MASK_CHOICE = LY_NODE_LEAF from by decide)]
  refine ⟨hskip, ?_, ?_⟩
  · intro lv m
    refine ⟨?_, hleaf lv m, ?_, ?_⟩
    · intro h
      rw [yang_print_mnode, h,
        if_pos (show LY_NODE_CONTAINER &&& LY_NODE_MASK_CHOICE = LY_NODE_CONTAINER from by decide)]
    · intro h
      rw [yang_print_mnode, h,
        if_neg (show ¬(LY_NODE_LEAFLIST &&& LY_NODE_MASK_CHOICE = LY_NODE_CONTAINER) from by decide),
        if_neg (show ¬(LY_NODE_LEAFLIST &&& LY_NODE_MASK_CHOICE = LY_NODE_CHOICE) from by decide),
        if_neg (show ¬(LY_NODE_LEAFLIST &&& LY_NODE_MASK_CHOICE = LY_NODE_LEAF) from by decide),
        if_pos (show LY_NODE_LEAFLIST &&& LY_NODE_MASK_CHOICE = LY_NODE_LEAFLIST from by decide)]
    · intro h
      rw [yang_print_mnode, h,
        if_neg (show ¬(LY_NODE_LIST &&& LY_NODE_MASK_CHOICE = LY_NODE_CONTAINER) from by decide),
        if_neg (show ¬(LY_NODE_LIST &&& LY_NODE_MASK_CHOICE = LY_NODE_CHOICE) from by decide),
        if_neg (show ¬(LY_NODE_LIST &&& LY_NODE_MASK_CHOICE = LY_NODE_LEAF) from by decide),
        if_neg (show ¬(LY_NODE_LIST &&& LY_NODE_MASK_CHOICE = LY_NODE_LEAFLIST) from by decide),
        if_pos (show LY_NODE_LIST &&& LY_NODE_MASK_CHOICE = LY_NODE_LIST from by decide)]
  · intro level ch g l hg hl hch
    rw [yang_print_choice, hch, yang_print_mnode_children, yang_print_mnode_children,
      yang_print_mnode_children, hskip (level+1) g (Or.inr (Or.inr hg)), hleaf (level+1) l hl]
    simp [String.append_assoc]

/-- A concrete grouping node for the C6 witness. -/
def nodeG : ly_mnode := .mk LY_NODE_GROUPING "g1" 0 none "m1" none none typeNull [] [] []

/-- A concrete leaf node for the C6 witness. -/
def nodeL : ly_mnode := .mk LY_NODE_LEAF "l1" 0 none "m1" none none typeNull [] [] []

/-- A concrete uses node for the C6 witness. -/
def nodeU : ly_mnode := .mk LY_NODE_USES "u1" 0 none "m1" none none typeNull [] [] []

/-- A concrete choice node whose children are a grouping and a leaf. -/
def nodeCh : ly_mnode := .mk LY_NODE_CHOICE "c1" 0 none "m1" none none typeNull [] [] [nodeG, nodeL]

/-- Witness for C6 at concrete nodes: a choice child of kind uses and one
of kind grouping each produce no output under the choice mask, a leaf
child dispatches to the leaf printer, and the concrete choice with a
grouping and a leaf child prints only the leaf. -/
theorem choice_child_mask_filtering_witness :
    yang_print_mnode 1 nodeG LY_NODE_MASK_CHOICE = ""
    ∧ yang_print_mnode 1 nodeU LY_NODE_MASK_CHOICE = ""
    ∧ yang_print_mnode 1 nodeL LY_NODE_MASK_CHOICE = yang_print_leaf 1 nodeL
    ∧ yang_print_choice 1 nodeCh =
        sp (1*2) ++ "choice " ++ nodeCh.name ++ " \x7b\n"
        ++ yang_print_mnode_common2 (1+1) nodeCh.flags nodeCh.parent_flags nodeCh.dsc nodeCh.ref
        ++ yang_print_leaf (1+1) nodeL
        ++ sp (1*2) ++ "\x7d\n" :=
  ⟨choice_child_mask_filtering.1 1 nodeG (Or.inr (Or.inr rfl)),
   choice_child_mask_filtering.1 1 nodeU (Or.inr (Or.inl rfl)),
   (choice_child_mask_filtering.2.1 1 nodeL).2.1 rfl,
   choice_child_mask_filtering.2.2 1 nodeCh nodeG nodeL rfl rfl rfl⟩

end Libyang
